import Mathlib

/-!
# Verification of py-ipv8 components

Shallow embedding of three parts of the `py-ipv8` repository:

* `ipv8/attestation/wallet/primitives/structs.py` — length-prefixed
  integer (de)serialization and the Boneh key structures;
* `ipv8/messaging/interfaces/statistics_endpoint.py` — traffic statistics
  aggregation;
* the hidden-services tunnel protocol, whose implementation modules
  (`messaging/anonymization/{tunnel,community,hidden_services}.py`) are not
  part of the analyzed sources: only their test file
  `ipv8/test/messaging/anonymization/test_hiddenservices.py` is.  Those
  parts are modelled from the specification and are marked as such.

Bytes (`str` in Python 2) are modelled as `List Nat`, every entry standing
for one byte value below 256.  Functions that can raise in Python are
modelled with `Option`/`Except`.
-/

namespace IPv8

/-! ## structs.py : integer packing -/

/-- Big-endian base-256 digits of `n` (empty for `n = 0`).  `fuel` bounds the
recursion and is always instantiated with `n` itself, which suffices since the
number of digits of `n` is at most `n`. -/
def natBytesBEAux : Nat → Nat → List Nat
  | 0, _ => []
  | fuel + 1, n => if n = 0 then [] else natBytesBEAux fuel (n / 256) ++ [n % 256]

/-- `_num_to_str(num)` from `structs.py`: the hexadecimal digits of `num`,
left-padded to even length, taken as big-endian bytes.  This equals the
minimal big-endian base-256 representation, with `0` encoded as the single
byte `0x00` (since `hex(0) = '0x0'` pads to `'00'`). -/
def num_to_str (n : Nat) : List Nat :=
  if n = 0 then [0] else natBytesBEAux n n

/-- `_str_to_num(s)` from `structs.py`: `out = (out << 8) | byte` folded over
the bytes.  Since every byte produced by `struct.unpack(">B", ...)` is below
256, `(out << 8) | byte = out * 256 + byte`. -/
def str_to_num (s : List Nat) : Nat :=
  s.foldl (fun out b => out * 256 + b) 0

/-- `_pack(num)` from `structs.py`: `struct.pack(">B", len(l)) + l + pnum`
where `pnum = _num_to_str(num)` and `l = _num_to_str(len(pnum))`.
`struct.pack(">B", x)` raises (modelled as `none`) when `x > 255`. -/
def pack (n : Nat) : Option (List Nat) :=
  if (num_to_str (num_to_str n).length).length ≤ 255 then
    some ((num_to_str (num_to_str n).length).length
          :: (num_to_str (num_to_str n).length ++ num_to_str n))
  else none

/-- `_unpack(s)` from `structs.py`.  `llen = s[0]`,
`l = _str_to_num(s[1:1+llen])`, the value is `_str_to_num(s[1+llen:llen+l+1])`
and the remainder `s[llen+l+1:]`.  `struct.unpack(">B", s[0:1])` raises
(modelled as `none`) on empty input; Python slices truncate silently. -/
def unpack (s : List Nat) : Option (Nat × List Nat) :=
  match s with
  | [] => none
  | llen :: rest =>
      some (str_to_num ((rest.drop llen).take (str_to_num (rest.take llen))),
            (rest.drop llen).drop (str_to_num (rest.take llen)))

/-- `pack_pair(a, b)` from `structs.py`: `_pack(a) + _pack(b)`. -/
def pack_pair (a b : Nat) : Option (List Nat) := do
  let pa ← pack a
  let pb ← pack b
  pure (pa ++ pb)

/-- `unpack_pair(s)` from `structs.py`: unpack two integers, return them with
the remainder. -/
def unpack_pair (s : List Nat) : Option (Nat × Nat × List Nat) := do
  let (a, r) ← unpack s
  let (b, r2) ← unpack r
  pure (a, b, r2)

theorem foldl_natBytesBEAux (fuel : Nat) : ∀ n, n ≤ fuel → ∀ acc : Nat,
    (natBytesBEAux fuel n).foldl (fun out b => out * 256 + b) acc
      = acc * 256 ^ (natBytesBEAux fuel n).length + n := by
  induction fuel with
  | zero =>
      intro n hn acc
      interval_cases n
      simp [natBytesBEAux]
  | succ fuel ih =>
      intro n hn acc
      by_cases h0 : n = 0
      · simp [natBytesBEAux, h0]
      · have hdiv : n / 256 ≤ fuel := by
          have := Nat.div_lt_self (Nat.pos_of_ne_zero h0) (by norm_num : 1 < 256)
          omega
        simp only [natBytesBEAux, h0, if_false, List.foldl_append, List.foldl_cons,
          List.foldl_nil, List.length_append, List.length_cons, List.length_nil]
        rw [ih (n / 256) hdiv acc]
        have hmod : n % 256 + 256 * (n / 256) = n := Nat.mod_add_div n 256
        ring_nf
        omega

theorem str_to_num_num_to_str (n : Nat) : str_to_num (num_to_str n) = n := by
  unfold num_to_str str_to_num
  by_cases h0 : n = 0
  · simp [h0]
  · simp only [h0, if_false]
    rw [foldl_natBytesBEAux n n (le_refl n) 0]
    simp

theorem unpack_pack (a : Nat) (pa : List Nat) (h : pack a = some pa) (r : List Nat) :
    unpack (pa ++ r) = some (a, r) := by
  unfold pack at h
  by_cases hle : (num_to_str (num_to_str a).length).length ≤ 255
  · rw [if_pos hle] at h
    cases h
    simp only [List.cons_append, unpack, List.append_assoc]
    rw [List.take_left, List.drop_left, str_to_num_num_to_str,
      List.take_left, List.drop_left, str_to_num_num_to_str]
  · rw [if_neg hle] at h
    cases h

/-- C8: `unpack_pair` inverts `pack_pair` and returns the untouched remainder:
whenever `pack_pair a b` succeeds with encoding `p`, decoding `p ++ r` yields
exactly `(a, b, r)`; in particular `_pack`/`_unpack` round-trip every
non-negative integer. -/
theorem claim_C8_pack_pair_roundtrip (a b : Nat) (r p : List Nat)
    (h : pack_pair a b = some p) : unpack_pair (p ++ r) = some (a, b, r) := by
  unfold pack_pair at h
  cases hpa : pack a with
  | none => rw [hpa] at h; cases h
  | some pa =>
      rw [hpa] at h
      cases hpb : pack b with
      | none => rw [hpb] at h; cases h
      | some pb =>
          rw [hpb] at h
          simp only [Option.pure_def, Option.bind_eq_bind, Option.some_bind,
            Option.some.injEq] at h
          subst h
          unfold unpack_pair
          rw [List.append_assoc, unpack_pack a pa hpa]
          simp only [Option.pure_def, Option.bind_eq_bind, Option.some_bind]
          rw [unpack_pack b pb hpb]
          simp

theorem claim_C8_pack_pair_roundtrip_witness :
    pack_pair 3 300 = some [1, 1, 3, 1, 2, 1, 44] ∧
    unpack_pair ([1, 1, 3, 1, 2, 1, 44] ++ [9]) = some (3, 300, [9]) :=
  ⟨by decide, claim_C8_pack_pair_roundtrip 3 300 [9] [1, 1, 3, 1, 2, 1, 44] (by decide)⟩

/-! ## structs.py : Boneh keys -/

/-- Modelled from the spec: `FP2Value` is defined in
`attestation/wallet/primitives/cryptosystem/value.py`, which is not among the
analyzed sources (the attestation cryptosystem is out of scope, §1).
`structs.py` constructs it as `FP2Value(mod, a, b)` and reads the coefficient
fields `.a` and `.b`; only that interface is modelled here. -/
structure FP2Value where
  mod : Nat
  a : Nat
  b : Nat
  deriving DecidableEq

/-- `BonehPublicKey` from `structs.py`: fields `p`, `g`, `h`; `FIELDS = 5`. -/
structure BonehPublicKey where
  p : Nat
  g : FP2Value
  h : FP2Value
  deriving DecidableEq

/-- `BonehPrivateKey` from `structs.py`: subclass of `BonehPublicKey` adding
`n` and `t1`; `FIELDS = 7`. -/
structure BonehPrivateKey extends BonehPublicKey where
  n : Nat
  t1 : Nat
  deriving DecidableEq

/-- `BonehPublicKey.serialize`:
`_pack(p) + _pack(g.a) + _pack(g.b) + _pack(h.a) + _pack(h.b)`. -/
def BonehPublicKey.serialize (k : BonehPublicKey) : Option (List Nat) := do
  pure ((← pack k.p) ++ (← pack k.g.a) ++ (← pack k.g.b)
        ++ (← pack k.h.a) ++ (← pack k.h.b))

/-- `BonehPrivateKey.serialize`: the public serialization followed by
`_pack(n) + _pack(t1)`. -/
def BonehPrivateKey.serialize (k : BonehPrivateKey) : Option (List Nat) := do
  pure ((← k.toBonehPublicKey.serialize) ++ (← pack k.n) ++ (← pack k.t1))

/-- `BonehPrivateKey.public_key()`. -/
def BonehPrivateKey.public_key (k : BonehPrivateKey) : BonehPublicKey :=
  k.toBonehPublicKey

/-- The `while rem and len(nums) < cls.FIELDS` loop of
`BonehPublicKey.unserialize`: unpack integers off the front of `rem` until the
input is exhausted or `k` integers have been collected; returns the collected
integers and the remaining input. -/
def unpackLoop : Nat → List Nat → List Nat × List Nat
  | 0, rem => ([], rem)
  | k + 1, rem =>
      match unpack rem with
      | none => ([], rem)
      | some (v, rem2) =>
          let res := unpackLoop k rem2
          (v :: res.1, res.2)

/-- The final `if len(nums) != cls.FIELDS: return None` plus the construction
`cls(nums[0], FP2Value(nums[0], nums[1], nums[2]),
FP2Value(nums[0], nums[3], nums[4]))` for `cls = BonehPublicKey`. -/
def mkPub : List Nat → Option BonehPublicKey
  | [n0, n1, n2, n3, n4] => some ⟨n0, ⟨n0, n1, n2⟩, ⟨n0, n3, n4⟩⟩
  | _ => none

/-- The same construction for `cls = BonehPrivateKey` (`FIELDS = 7`): `inits`
additionally receives `nums[5]` and `nums[6]`. -/
def mkPriv : List Nat → Option BonehPrivateKey
  | [n0, n1, n2, n3, n4, n5, n6] => some ⟨⟨n0, ⟨n0, n1, n2⟩, ⟨n0, n3, n4⟩⟩, n5, n6⟩
  | _ => none

/-- `BonehPublicKey.unserialize(s)` from `structs.py`. -/
def BonehPublicKey.unserialize (s : List Nat) : Option BonehPublicKey :=
  mkPub (unpackLoop 5 s).1

/-- `BonehPrivateKey.unserialize(s)`: the inherited classmethod with
`cls.FIELDS = 7`. -/
def BonehPrivateKey.unserialize (s : List Nat) : Option BonehPrivateKey :=
  mkPriv (unpackLoop 7 s).1

/-- Concatenation of the packings of a list of integers (`none` if any single
packing fails). -/
def packList : List Nat → Option (List Nat)
  | [] => some []
  | n :: t => do pure ((← pack n) ++ (← packList t))

theorem unpackLoop_nil (k : Nat) : unpackLoop k [] = ([], []) := by
  cases k <;> rfl

theorem unpackLoop_cons (k : Nat) (a : Nat) (pa s : List Nat) (h : pack a = some pa) :
    unpackLoop (k + 1) (pa ++ s)
      = (a :: (unpackLoop k s).1, (unpackLoop k s).2) := by
  have hu : unpack (pa ++ s) = some (a, s) := unpack_pack a pa h s
  simp [unpackLoop, hu]

theorem unpackLoop_packList (ns : List Nat) : ∀ (s : List Nat) (k : Nat),
    packList ns = some s → ns.length ≤ k → unpackLoop k s = (ns, []) := by
  induction ns with
  | nil =>
      intro s k h _
      simp only [packList, Option.some.injEq] at h
      subst h
      exact unpackLoop_nil k
  | cons n t ih =>
      intro s k h hk
      unfold packList at h
      cases hn : pack n with
      | none => rw [hn] at h; cases h
      | some pn =>
          rw [hn] at h
          cases ht : packList t with
          | none => rw [ht] at h; cases h
          | some pt =>
              rw [ht] at h
              simp only [Option.pure_def, Option.bind_eq_bind, Option.some_bind,
                Option.some.injEq] at h
              subst h
              cases k with
              | zero => simp at hk
              | succ k =>
                  rw [unpackLoop_cons k n pn pt hn,
                    ih pt k ht (by simpa using hk)]

theorem mkPub_of_length_ne (ns : List Nat) (h : ns.length ≠ 5) : mkPub ns = none := by
  unfold mkPub
  split
  · simp_all
  · rfl

theorem mkPriv_of_length_ne (ns : List Nat) (h : ns.length ≠ 7) : mkPriv ns = none := by
  unfold mkPriv
  split
  · simp_all
  · rfl

theorem pub_serialize_eq_packList (k : BonehPublicKey) :
    k.serialize = packList [k.p, k.g.a, k.g.b, k.h.a, k.h.b] := by
  unfold BonehPublicKey.serialize
  cases h1 : pack k.p <;> cases h2 : pack k.g.a <;> cases h3 : pack k.g.b
    <;> cases h4 : pack k.h.a <;> cases h5 : pack k.h.b
    <;> simp [packList, h1, h2, h3, h4, h5]

theorem priv_serialize_eq_packList (k : BonehPrivateKey) :
    k.serialize = packList [k.p, k.g.a, k.g.b, k.h.a, k.h.b, k.n, k.t1] := by
  unfold BonehPrivateKey.serialize
  rw [pub_serialize_eq_packList]
  show _ = packList ([k.p, k.g.a, k.g.b, k.h.a, k.h.b] ++ [k.n, k.t1])
  generalize [k.p, k.g.a, k.g.b, k.h.a, k.h.b] = l
  induction l with
  | nil =>
      simp only [List.nil_append]
      cases hn : pack k.n <;> cases ht : pack k.t1 <;> simp [packList, hn, ht]
  | cons x t ih =>
      simp only [List.cons_append, packList, List.append_eq]
      rw [← ih]
      cases hx : pack x <;> cases ht : packList t <;> cases hn : pack k.n
        <;> cases h1 : pack k.t1 <;> simp [hx, ht, hn, h1, List.append_assoc]

/-- C9: serializing then unserializing a Boneh key preserves the numeric
coefficients `p`, `g.a`, `g.b`, `h.a`, `h.b` (and `n`, `t1` for the private
key); and `unserialize` returns `None` (not an exception) on any input that
encodes fewer length-prefixed integers than the class's `FIELDS` count
(5 public, 7 private). -/
theorem claim_C9_boneh_key_roundtrip :
    (∀ (k : BonehPublicKey) (s : List Nat), k.serialize = some s →
        BonehPublicKey.unserialize s
          = some ⟨k.p, ⟨k.p, k.g.a, k.g.b⟩, ⟨k.p, k.h.a, k.h.b⟩⟩) ∧
    (∀ (k : BonehPrivateKey) (s : List Nat), k.serialize = some s →
        BonehPrivateKey.unserialize s
          = some ⟨⟨k.p, ⟨k.p, k.g.a, k.g.b⟩, ⟨k.p, k.h.a, k.h.b⟩⟩, k.n, k.t1⟩) ∧
    (∀ (ns s : List Nat), ns.length < 5 → packList ns = some s →
        BonehPublicKey.unserialize s = none) ∧
    (∀ (ns s : List Nat), ns.length < 7 → packList ns = some s →
        BonehPrivateKey.unserialize s = none) := by
  refine ⟨?_, ?_, ?_, ?_⟩
  · intro k s h
    rw [pub_serialize_eq_packList] at h
    unfold BonehPublicKey.unserialize
    rw [unpackLoop_packList _ s 5 h (by simp)]
    rfl
  · intro k s h
    rw [priv_serialize_eq_packList] at h
    unfold BonehPrivateKey.unserialize
    rw [unpackLoop_packList _ s 7 h (by simp)]
    rfl
  · intro ns s hlen h
    unfold BonehPublicKey.unserialize
    rw [unpackLoop_packList ns s 5 h (by omega)]
    exact mkPub_of_length_ne ns (by omega)
  · intro ns s hlen h
    unfold BonehPrivateKey.unserialize
    rw [unpackLoop_packList ns s 7 h (by omega)]
    exact mkPriv_of_length_ne ns (by omega)

theorem claim_C9_boneh_key_roundtrip_witness :
    (BonehPublicKey.serialize ⟨5, ⟨5, 1, 2⟩, ⟨5, 3, 4⟩⟩
        = some [1, 1, 5, 1, 1, 1, 1, 1, 2, 1, 1, 3, 1, 1, 4] ∧
      BonehPublicKey.unserialize [1, 1, 5, 1, 1, 1, 1, 1, 2, 1, 1, 3, 1, 1, 4]
        = some ⟨5, ⟨5, 1, 2⟩, ⟨5, 3, 4⟩⟩) ∧
    (packList [8, 9] = some [1, 1, 8, 1, 1, 9] ∧
      BonehPublicKey.unserialize [1, 1, 8, 1, 1, 9] = none) :=
  ⟨⟨by decide,
    claim_C9_boneh_key_roundtrip.1 ⟨5, ⟨5, 1, 2⟩, ⟨5, 3, 4⟩⟩ _ (by decide)⟩,
   ⟨by decide,
    claim_C9_boneh_key_roundtrip.2.2.1 [8, 9] _ (by decide) (by decide)⟩⟩

/-! ## statistics_endpoint.py -/

/-- Modelled from the spec: `NetworkStat` lives in
`deprecated/network_stats.py`, which is not among the analyzed sources
(statistics collection is out of scope, §1).  Only the counters read and
written by `StatisticsEndpoint` are modelled. -/
structure NetworkStat where
  identifier : Nat
  num_up : Nat
  num_down : Nat
  bytes_up : Nat
  bytes_down : Nat
  deriving DecidableEq

/-- Keys of the Python dict `self.statistics`.  The class only ever inserts
22-byte community prefixes (`StatKey.pfx`), but line 112 of
`statistics_endpoint.py` looks up an integer identifier at the top level,
which is modelled by `StatKey.ident`; a bytes key and an int key are never
equal in Python. -/
inductive StatKey where
  | pfx (b : List Nat)
  | ident (i : Nat)
  deriving DecidableEq

/-- Python dict lookup on an association list (`d[k]`, `none` = `KeyError`). -/
def alookup {α β : Type} [DecidableEq α] : List (α × β) → α → Option β
  | [], _ => none
  | (k, v) :: t, a => if k = a then some v else alookup t a

/-- `self.statistics`: community prefix → (message identifier → NetworkStat). -/
def Statistics : Type := List (StatKey × List (Nat × NetworkStat))

def IDS_INTRODUCTION : List Nat := [245, 246]

def IDS_PUNCTURE : List Nat := [249, 250]

def IDS_DEPRECATED : List Nat :=
  [235, 236, 237, 238, 239, 240, 241, 242, 243, 244, 247, 248, 251, 252, 253, 254, 255]

/-- `StatisticsEndpoint.is_excluded`: Python's `and` binds tighter than
`or`. -/
def is_excluded (identifier : Nat)
    (include_introduction include_puncture include_deprecated : Bool) : Bool :=
  (IDS_DEPRECATED.contains identifier && !include_deprecated)
  || (IDS_INTRODUCTION.contains identifier && !include_introduction)
  || (IDS_PUNCTURE.contains identifier && !include_puncture)

/-- `StatisticsEndpoint.get_bytes_sent`: sum `bytes_up` of every
non-excluded identifier under `self.statistics[prefix]`; `0` when the
prefix is unknown. -/
def get_bytes_sent (stats : Statistics) (p : List Nat)
    (include_introduction include_puncture include_deprecated : Bool) : Nat :=
  match alookup stats (StatKey.pfx p) with
  | none => 0
  | some inner =>
      inner.foldl (fun acc e =>
        if !(is_excluded e.1 include_introduction include_puncture include_deprecated)
        then acc + e.2.bytes_up else acc) 0

/-- `StatisticsEndpoint.get_bytes_received` as written: line 112 reads
`self.statistics[identifier].bytes_down` — it indexes the *top-level* dict
with the integer message identifier instead of
`self.statistics[prefix][identifier]`.  An int key never equals a bytes
prefix key, so the lookup raises `KeyError`; were an int key ever present,
its value would be an inner dict, which has no attribute `bytes_down`
(`AttributeError`).  Exceptions are modelled with `Except`. -/
def get_bytes_received (stats : Statistics) (p : List Nat)
    (include_introduction include_puncture include_deprecated : Bool) :
    Except String Nat :=
  match alookup stats (StatKey.pfx p) with
  | none => Except.ok 0
  | some inner =>
      inner.foldlM (fun acc e =>
        if !(is_excluded e.1 include_introduction include_puncture include_deprecated)
        then
          match alookup stats (StatKey.ident e.1) with
          | none => Except.error "KeyError"
          | some _ => Except.error "AttributeError"
        else pure acc) 0

/-- `get_bytes_received` as the claim (and the surrounding code:
`get_bytes_sent`, `get_message_received`) intends it: sum `bytes_down` of
every non-excluded identifier under `self.statistics[prefix]`. -/
def get_bytes_received_spec (stats : Statistics) (p : List Nat)
    (include_introduction include_puncture include_deprecated : Bool) : Nat :=
  match alookup stats (StatKey.pfx p) with
  | none => 0
  | some inner =>
      inner.foldl (fun acc e =>
        if !(is_excluded e.1 include_introduction include_puncture include_deprecated)
        then acc + e.2.bytes_down else acc) 0

/-- C10: the code diverges from the claim.  On a statistics state holding one
recorded identifier (2, not excluded by any filter, with 7 bytes sent and 5
bytes received) under a 22-byte prefix, `get_bytes_sent` returns 7, the
claimed mirror image of it would return 5, but `get_bytes_received` as
written raises `KeyError`, because it indexes the top-level statistics dict
with the integer identifier. -/
theorem claim_C10_get_bytes_received_bug :
    get_bytes_sent
        [(StatKey.pfx (List.replicate 22 48), [(2, ⟨2, 1, 1, 7, 5⟩)])]
        (List.replicate 22 48) false false false = 7 ∧
    get_bytes_received_spec
        [(StatKey.pfx (List.replicate 22 48), [(2, ⟨2, 1, 1, 7, 5⟩)])]
        (List.replicate 22 48) false false false = 5 ∧
    get_bytes_received
        [(StatKey.pfx (List.replicate 22 48), [(2, ⟨2, 1, 1, 7, 5⟩)])]
        (List.replicate 22 48) false false false = Except.error "KeyError" := by
  refine ⟨by decide, by decide, by rfl⟩

/-! ## Hidden services: swarms and introduction points

The implementation modules `messaging/anonymization/{tunnel, community,
hidden_services}.py` are not among the analyzed sources; only their test file
`test_hiddenservices.py` is.  The data model and operations below are
modelled from the specification (§3, §4.2–§4.5) and each carries a
`Modelled from the spec` note; definitions taken from the test file itself
say so explicitly.  Peers and public keys are identified by naturals,
service identifiers and payloads are byte lists. -/

/-- `IntroductionPoint` (§3): the pair `(relay_peer, seeder_public_key)`,
an immutable value compared by both fields. -/
structure IntroductionPoint where
  peer : Nat
  seeder_pk : Nat
  deriving DecidableEq

/-- Modelled from the spec (§3): `known_introduction_points` is a set —
duplicates collapse under value equality — so insertion adds the point only
when it is not already present. -/
def add_intro_point (ips : List IntroductionPoint) (ip : IntroductionPoint) :
    List IntroductionPoint :=
  if ip ∈ ips then ips else ips ++ [ip]

/-- Modelled from the spec (§4.4 PEX): merging a PEX response into a known
set is set union — every received point is inserted with `add_intro_point`. -/
def pex_merge (store resp : List IntroductionPoint) : List IntroductionPoint :=
  resp.foldl add_intro_point store

/-- `Swarm` (§3): per-service record with role flags, the seeder's public key
when seeding, the known introduction points, and the pending-callback state
(`callback_registered`, and `callback_fired` once it has fired). -/
structure Swarm where
  service_id : List Nat
  goal_hops : Nat
  seeding : Bool
  downloading : Bool
  seeder_pk : Option Nat
  intro_points : List IntroductionPoint
  callback_registered : Bool
  callback_fired : Bool
  deriving DecidableEq

/-- Modelled from the spec (§4.3 `join_swarm`): create the swarm record for
`service_id`; a seeder generates a keypair whose public part is `own_pk`; a
joining node takes part in discovery; a registered callback has not fired
yet. -/
def join_swarm (service_id : List Nat) (goal_hops : Nat)
    (callback_registered : Bool) (seeding : Bool) (own_pk : Nat) : Swarm :=
  { service_id := service_id
    goal_hops := goal_hops
    seeding := seeding
    downloading := true
    seeder_pk := if seeding then some own_pk else none
    intro_points := []
    callback_registered := callback_registered
    callback_fired := false }

/-- Modelled from the spec (§4.3, §4.4): processing one discovery response
(DHT or PEX).  Every returned introduction point naming the node's own
seeder key is discarded before insertion (self-introduction suppression);
the rest are inserted with set semantics; the registered callback fires the
first time the set of known introduction points becomes non-empty. -/
def Swarm.process_discovery_response (sw : Swarm)
    (resp : List IntroductionPoint) : Swarm :=
  let ips := resp.foldl
    (fun acc ip =>
      if sw.seeder_pk = some ip.seeder_pk then acc else add_intro_point acc ip)
    sw.intro_points
  { sw with
    intro_points := ips
    callback_fired := sw.callback_fired || (sw.callback_registered && !ips.isEmpty) }

theorem mem_add_intro_point {ips : List IntroductionPoint}
    {ip x : IntroductionPoint} (h : x ∈ add_intro_point ips ip) :
    x ∈ ips ∨ x = ip := by
  unfold add_intro_point at h
  by_cases hmem : ip ∈ ips
  · rw [if_pos hmem] at h
    exact Or.inl h
  · rw [if_neg hmem] at h
    rcases List.mem_append.mp h with h1 | h1
    · exact Or.inl h1
    · simp only [List.mem_singleton] at h1
      exact Or.inr h1

theorem mem_foldl_filter_add (own : Option Nat) (resp : List IntroductionPoint) :
    ∀ (acc : List IntroductionPoint) (x : IntroductionPoint),
    x ∈ resp.foldl
      (fun a i => if own = some i.seeder_pk then a else add_intro_point a i) acc →
    x ∈ acc ∨ own ≠ some x.seeder_pk := by
  induction resp with
  | nil =>
      intro acc x h
      exact Or.inl h
  | cons r t ih =>
      intro acc x h
      simp only [List.foldl_cons] at h
      rcases ih _ x h with h1 | h1
      · by_cases hr : own = some r.seeder_pk
        · rw [if_pos hr] at h1
          exact Or.inl h1
        · rw [if_neg hr] at h1
          rcases mem_add_intro_point h1 with h2 | h2
          · exact Or.inl h2
          · subst h2
            exact Or.inr hr
      · exact Or.inr h1

/-- C2: a node that seeds a service and also downloads it never records its
own seeder public key among the known introduction points, over any sequence
of processed DHT/PEX discovery responses: a response naming the node itself
is discarded before insertion. -/
theorem claim_C2_no_self_introduction (sw : Swarm) (pk : Nat)
    (hseed : sw.seeding = true) (hdown : sw.downloading = true)
    (hpk : sw.seeder_pk = some pk)
    (hstart : ∀ ip ∈ sw.intro_points, ip.seeder_pk ≠ pk)
    (resps : List (List IntroductionPoint)) :
    ∀ ip ∈ (resps.foldl Swarm.process_discovery_response sw).intro_points,
      ip.seeder_pk ≠ pk := by
  induction resps generalizing sw with
  | nil =>
      intro ip h
      exact hstart ip h
  | cons r t ih =>
      simp only [List.foldl_cons]
      refine ih (sw.process_discovery_response r) hseed hdown hpk ?_
      intro ip h
      rcases mem_foldl_filter_add sw.seeder_pk r sw.intro_points ip h with h1 | h1
      · exact hstart ip h1
      · intro hc
        rw [hpk, hc] at h1
        exact h1 rfl

theorem claim_C2_no_self_introduction_witness :
    (IntroductionPoint.mk 6 8) ∈
      ([[⟨4, 5⟩, ⟨6, 8⟩]].foldl Swarm.process_discovery_response
        ⟨List.replicate 20 48, 1, true, true, some 5, [⟨3, 7⟩], true, false⟩).intro_points ∧
    (IntroductionPoint.mk 6 8).seeder_pk ≠ 5 :=
  ⟨by decide,
   claim_C2_no_self_introduction
     ⟨List.replicate 20 48, 1, true, true, some 5, [⟨3, 7⟩], true, false⟩ 5
     (by decide) (by decide) (by decide) (by decide) [[⟨4, 5⟩, ⟨6, 8⟩]]
     ⟨6, 8⟩ (by decide)⟩

/-- C6: inserting an introduction point is idempotent under value equality
on `(relay_peer, seeder_public_key)`: if the point occurs at most once
before the first insertion, then after discovering it — once more directly,
or again through a PEX response (the DHT and PEX channels both insert with
`add_intro_point`) — exactly one entry for it is present. -/
theorem claim_C6_add_intro_point_idempotent (ips : List IntroductionPoint)
    (ip : IntroductionPoint) (h : ips.count ip ≤ 1) :
    add_intro_point (add_intro_point ips ip) ip = add_intro_point ips ip ∧
    pex_merge (add_intro_point ips ip) [ip] = add_intro_point ips ip ∧
    (add_intro_point ips ip).count ip = 1 := by
  have hmem : ip ∈ add_intro_point ips ip := by
    unfold add_intro_point
    by_cases hmem : ip ∈ ips
    · rwa [if_pos hmem]
    · rw [if_neg hmem]
      simp
  have hidem : add_intro_point (add_intro_point ips ip) ip = add_intro_point ips ip := by
    have hstep : add_intro_point (add_intro_point ips ip) ip
        = if ip ∈ add_intro_point ips ip then add_intro_point ips ip
          else add_intro_point ips ip ++ [ip] := rfl
    rw [hstep, if_pos hmem]
  refine ⟨hidem, ?_, ?_⟩
  · show add_intro_point (add_intro_point ips ip) ip = add_intro_point ips ip
    exact hidem
  · unfold add_intro_point
    by_cases hm : ip ∈ ips
    · rw [if_pos hm]
      have := List.count_pos_iff.mpr hm
      omega
    · rw [if_neg hm]
      rw [List.count_append]
      rw [List.count_eq_zero_of_not_mem hm]
      simp

theorem claim_C6_add_intro_point_idempotent_witness :
    add_intro_point (add_intro_point [⟨1, 9⟩] ⟨2, 9⟩) ⟨2, 9⟩
        = add_intro_point [⟨1, 9⟩] ⟨2, 9⟩ ∧
    pex_merge (add_intro_point [⟨1, 9⟩] ⟨2, 9⟩) [⟨2, 9⟩]
        = add_intro_point [⟨1, 9⟩] ⟨2, 9⟩ ∧
    (add_intro_point [⟨1, 9⟩] ⟨2, 9⟩).count ⟨2, 9⟩ = 1 :=
  claim_C6_add_intro_point_idempotent [⟨1, 9⟩] ⟨2, 9⟩ (by decide)

/-! ### Circuits -/

/-- `ctype` (§3): how a circuit is used once ready. -/
inductive CircuitType where
  | data
  | ipSeeder
  | ipDownloader
  | rpSeeder
  | rpDownloader
  deriving DecidableEq

/-- `state` (§3). -/
inductive CircuitState where
  | extending
  | ready
  | broken
  deriving DecidableEq

/-- `Circuit` (§3): a locally tracked onion path.  `ordered_hops` keeps the
peer identities (the per-hop session keys play no role in the claims). -/
structure Circuit where
  circuit_id : Nat
  goal_hops : Nat
  ordered_hops : List Nat
  ctype : CircuitType
  state : CircuitState
  deriving DecidableEq

/-- Modelled from the spec (§4.2): a build request creates a circuit with no
completed hops. -/
def create_circuit (cid goal : Nat) (ct : CircuitType) : Circuit :=
  { circuit_id := cid
    goal_hops := goal
    ordered_hops := []
    ctype := ct
    state := CircuitState.extending }

/-- Modelled from the spec (§4.2): a successful handshake response appends
one hop.  The builder extends only while the goal length is not reached and
never reuses a peer already present in `ordered_hops`; reaching the goal
makes the circuit READY. -/
def extend_circuit (c : Circuit) (p : Nat) : Circuit :=
  if c.ordered_hops.length < c.goal_hops ∧ p ∉ c.ordered_hops then
    { c with
      ordered_hops := c.ordered_hops ++ [p]
      state := if c.ordered_hops.length + 1 = c.goal_hops
               then CircuitState.ready else CircuitState.extending }
  else c

/-- The invariant of C7: the number of completed hops never exceeds the goal
length, and no peer occurs twice on the path. -/
def circuit_inv (c : Circuit) : Prop :=
  c.ordered_hops.length ≤ c.goal_hops ∧ c.ordered_hops.Nodup

instance (c : Circuit) : Decidable (circuit_inv c) := by
  unfold circuit_inv
  infer_instance

/-- C7: every circuit satisfies `len(ordered_hops) <= goal_hops` with no
duplicated peer at every point of its lifecycle — the invariant holds at
creation and is preserved by every extension step. -/
theorem claim_C7_circuit_invariant :
    (∀ (cid goal : Nat) (ct : CircuitType), circuit_inv (create_circuit cid goal ct)) ∧
    (∀ (c : Circuit) (p : Nat), circuit_inv c → circuit_inv (extend_circuit c p)) := by
  constructor
  · intro cid goal ct
    exact ⟨Nat.zero_le goal, List.nodup_nil⟩
  · intro c p h
    unfold extend_circuit
    by_cases hc : c.ordered_hops.length < c.goal_hops ∧ p ∉ c.ordered_hops
    · rw [if_pos hc]
      constructor
      · simp only [List.length_append, List.length_singleton]
        omega
      · simp only [List.nodup_append, List.nodup_singleton, List.disjoint_singleton]
        exact ⟨h.2, trivial, hc.2⟩
    · rw [if_neg hc]
      exact h

theorem claim_C7_circuit_invariant_witness :
    circuit_inv (create_circuit 42 2 CircuitType.data) ∧
    circuit_inv (extend_circuit ⟨42, 2, [4], CircuitType.data, CircuitState.extending⟩ 5) :=
  ⟨claim_C7_circuit_invariant.1 42 2 CircuitType.data,
   claim_C7_circuit_invariant.2 ⟨42, 2, [4], CircuitType.data, CircuitState.extending⟩ 5
     (by decide)⟩

/-! ### Discovery rounds (C3) -/

/-- Modelled from the spec (§4.4 downloader side): one peer-discovery round.
The DHT lookup returns every published `(service_id, IntroductionPoint)`
entry for the swarm's service; the set of results is processed as a
discovery response. -/
def discovery_round (dht : List (List Nat × IntroductionPoint)) (sw : Swarm) :
    Swarm :=
  sw.process_discovery_response
    ((dht.filter (fun e => e.1 = sw.service_id)).map (fun e => e.2))

/-- `n` consecutive discovery rounds with message delivery. -/
def run_discovery (dht : List (List Nat × IntroductionPoint)) :
    Nat → Swarm → Swarm
  | 0, sw => sw
  | n + 1, sw => run_discovery dht n (discovery_round dht sw)

theorem foldl_filter_add_all_self (own : Option Nat)
    (resp : List IntroductionPoint) :
    ∀ acc : List IntroductionPoint, (∀ i ∈ resp, own = some i.seeder_pk) →
    resp.foldl
      (fun a i => if own = some i.seeder_pk then a else add_intro_point a i) acc
      = acc := by
  induction resp with
  | nil =>
      intro acc _
      rfl
  | cons r t ih =>
      intro acc h
      simp only [List.foldl_cons, if_pos (h r (List.mem_cons_self r t))]
      exact ih acc (fun i hi => h i (List.mem_cons_of_mem r hi))

theorem run_discovery_self_only (dht : List (List Nat × IntroductionPoint)) :
    ∀ (n : Nat) (sw : Swarm),
    (∀ e ∈ dht, e.1 = sw.service_id → sw.seeder_pk = some e.2.seeder_pk) →
    sw.intro_points = [] → sw.callback_fired = false →
    (run_discovery dht n sw).intro_points = [] ∧
    (run_discovery dht n sw).callback_fired = false := by
  intro n
  induction n with
  | zero =>
      intro sw _ hips hcb
      exact ⟨hips, hcb⟩
  | succ n ih =>
      intro sw hdht hips hcb
      have hresp : ∀ i ∈ (dht.filter (fun e => e.1 = sw.service_id)).map
          (fun e => e.2), sw.seeder_pk = some i.seeder_pk := by
        intro i hi
        rcases List.mem_map.mp hi with ⟨e, he, rfl⟩
        rcases List.mem_filter.mp he with ⟨he1, he2⟩
        exact hdht e he1 (by simpa using he2)
      have hstep : discovery_round dht sw =
          { sw with intro_points := sw.intro_points,
                    callback_fired := sw.callback_fired
                      || (sw.callback_registered && !sw.intro_points.isEmpty) } := by
        unfold discovery_round Swarm.process_discovery_response
        rw [foldl_filter_add_all_self sw.seeder_pk _ sw.intro_points hresp]
      show (run_discovery dht n (discovery_round dht sw)).intro_points = [] ∧ _
      refine ih (discovery_round dht sw) ?_ ?_ ?_
      · intro e he h1
        rw [hstep] at h1 ⊢
        exact hdht e he h1
      · rw [hstep, hips]
      · rw [hstep, hips, hcb]
        simp

/-- C3: a node that joins a swarm whose service has no counterparty seeder
anywhere — every DHT entry for the service, if any, names the node's own
seeder key — never fires the callback registered with `join_swarm`, no
matter how many discovery rounds run: not firing is the terminal state of
this configuration. -/
theorem claim_C3_no_counterparty_never_fires (sid : List Nat) (goal : Nat)
    (seeding : Bool) (own_pk : Nat) (dht : List (List Nat × IntroductionPoint))
    (hself : ∀ e ∈ dht, e.1 = sid →
      (join_swarm sid goal true seeding own_pk).seeder_pk = some e.2.seeder_pk) :
    ∀ n : Nat,
      (run_discovery dht n (join_swarm sid goal true seeding own_pk)).callback_fired
        = false := by
  intro n
  exact (run_discovery_self_only dht n (join_swarm sid goal true seeding own_pk)
    hself rfl rfl).2

theorem claim_C3_no_counterparty_never_fires_witness :
    (run_discovery [(List.replicate 20 48, ⟨7, 5⟩)] 3
      (join_swarm (List.replicate 20 48) 1 true true 5)).callback_fired = false :=
  claim_C3_no_counterparty_never_fires (List.replicate 20 48) 1 true 5
    [(List.replicate 20 48, ⟨7, 5⟩)] (by decide) 3

/-! ### Introduction-point creation and PEX (C4, C5) -/

/-- `b'0' * 20`, the service identifier used by the reference scenarios. -/
def serviceS : List Nat := List.replicate 20 48

/-- A node as seen by the introduction-point protocol: its address, its
verified peers, the seeder keys it is an introduction point for
(`intro_point_for`), and the introduction points it knows and announces over
PEX. -/
structure HSNode where
  addr : Nat
  verified : List Nat
  intro_point_for : List Nat
  pex_store : List IntroductionPoint
  deriving DecidableEq

/-- Modelled from the spec (§4.4 seeder side): once the IP_SEEDER circuit to
the chosen relay is ready, the relay records the seeder's public key in its
`intro_point_for` table, listens on the seeder's behalf, and answers PEX
queries about the introduction point. -/
def install_intro_point (net : List HSNode) (relay pk : Nat) : List HSNode :=
  net.map (fun n =>
    if n.addr = relay then
      { n with
        intro_point_for := n.intro_point_for ++ [pk]
        pex_store := add_intro_point n.pex_store ⟨relay, pk⟩ }
    else n)

/-- Modelled from the spec (§4.4 `create_introduction_point`): the relay is
the required last hop when given, else the first verified candidate other
than the seeder itself; nothing happens when no candidate exists
(`NoCandidatePeer`). -/
def create_introduction_point (net : List HSNode) (seeder pk : Nat)
    (required_ip : Option Nat) : List HSNode :=
  match (match required_ip with
         | some p => some p
         | none =>
             match net.find? (fun n => n.addr = seeder) with
             | none => none
             | some n => (n.verified.filter (fun p => p ≠ seeder)).head?) with
  | none => net
  | some relay => install_intro_point net relay pk

/-- The PEX announcements a node answers with. -/
def store_of (net : List HSNode) (addr : Nat) : List IntroductionPoint :=
  match net.find? (fun n => n.addr = addr) with
  | none => []
  | some n => n.pex_store

/-- Modelled from the spec (§4.4 PEX): two relays participating in the same
service exchange their known introduction points; each merges the other's
set into its own (set union). -/
def pex_exchange (net : List HSNode) (a b : Nat) : List HSNode :=
  net.map (fun n =>
    if n.addr = a then { n with pex_store := pex_merge n.pex_store (store_of net b) }
    else if n.addr = b then { n with pex_store := pex_merge n.pex_store (store_of net a) }
    else n)

/-- Modelled from the spec (§4.4 PEX, downloader side): over its data
circuit the downloader issues a get-introduction-points request to each
relay it already knows as an introduction point and merges the responses
into the swarm. -/
def pex_discovery (net : List HSNode) (sw : Swarm) : Swarm :=
  sw.process_discovery_response
    ((sw.intro_points.map (fun ip => store_of net ip.peer)).flatten)

/-- Nodes 0, 1, 2 and the later-added downloader 3; the seeder 0 has nodes 1
and 2 as verified peers. -/
def c4Net0 : List HSNode :=
  [⟨0, [1, 2], [], []⟩, ⟨1, [0, 2], [], []⟩, ⟨2, [0, 1], [], []⟩, ⟨3, [1, 2], [], []⟩]

/-- The C4 network after node 0 (seeder key 10) created introduction points
at the required relays 1 and 2 and the two relays ran a PEX exchange. -/
def c4NetReady : List HSNode :=
  pex_exchange
    (create_introduction_point
      (create_introduction_point c4Net0 0 10 (some 1)) 0 10 (some 2))
    1 2

/-- Node 3's swarm: joined as a pure downloader, knowing only relay 2 as an
introduction point. -/
def c4Swarm : Swarm :=
  { join_swarm serviceS 1 false false 0 with
    intro_points := add_intro_point [] ⟨2, 10⟩ }

/-- C4: with introduction points at relays 1 and 2 and PEX having run
between them, a downloader that knows only relay 2 learns both relays from a
single peers-request over its data circuit — `pex_discovery` consults no
DHT — and ends with exactly the two relay peers as known introduction
points. -/
theorem claim_C4_pex_propagation :
    (pex_discovery c4NetReady c4Swarm).intro_points.map IntroductionPoint.peer
        = [2, 1] ∧
    1 ∈ (pex_discovery c4NetReady c4Swarm).intro_points.map IntroductionPoint.peer ∧
    2 ∈ (pex_discovery c4NetReady c4Swarm).intro_points.map IntroductionPoint.peer := by
  refine ⟨by decide, by decide, by decide⟩

/-- The three mutually introduced nodes of the C5 scenario. -/
def c5Net0 : List HSNode :=
  [⟨0, [1, 2], [], []⟩, ⟨1, [0, 2], [], []⟩, ⟨2, [0, 1], [], []⟩]

/-- C5: after node 0 (seeder key 10 for service `b'0'*20`, swarm joined with
1 hop) creates a 1-hop introduction point among the introduced nodes, some
node other than node 0 holds node 0's seeder public key in its
`intro_point_for` table. -/
theorem claim_C5_intro_point_recorded :
    (join_swarm serviceS 1 false true 10).seeder_pk = some 10 ∧
    ∃ n ∈ create_introduction_point c5Net0 0 10 none,
      n.addr ≠ 0 ∧ 10 ∈ n.intro_point_for := by
  refine ⟨by decide, by decide⟩

/-! ### The end-to-end rendezvous scenario (C1)

`get_e2e_circuit_path` and the relay walk below are embedded from the test
file `test_hiddenservices.py` (lines 33–74), which is among the analyzed
sources; the network state they run on is modelled from the spec. -/

/-- A relay-table entry as used by the walk: the outgoing circuit identifier
and the peer it leads to.  The walk reads only `.circuit_id` and `.peer` of
the tunnels it traverses, so circuits are projected to the same shape. -/
structure RelayRoute where
  circuit_id : Nat
  peer : Nat
  deriving DecidableEq

/-- `circuit.peer`: the first hop of the circuit. -/
def Circuit.peer (c : Circuit) : Nat := c.ordered_hops.headD 0

/-- A node as seen by the test walk: `node.overlay.my_peer.address`,
`node.overlay.circuits` and `node.overlay.relay_from_to`. -/
structure WalkNode where
  addr : Nat
  circuits : List (Nat × Circuit)
  relay_from_to : List (Nat × RelayRoute)
  deriving DecidableEq

/-- From the test (lines 40–48): scan all nodes for a circuit with
`ctype == CIRCUIT_TYPE_RP_DOWNLOADER`.  The `break` leaves the inner loop
only, so a later node's first matching circuit overwrites an earlier
node's. -/
def find_rp_downloader (nodes : List WalkNode) : Option (WalkNode × Circuit) :=
  nodes.foldl
    (fun acc n =>
      match (n.circuits.map (fun e => e.2)).find?
          (fun c => c.ctype = CircuitType.rpDownloader) with
      | some c => some (n, c)
      | none => acc)
    none

/-- From the test (lines 54–59). -/
def get_node_with_sock_addr (nodes : List WalkNode) (sock_addr : Nat) :
    Option WalkNode :=
  nodes.find? (fun n => n.addr = sock_addr)

/-- From the test (lines 64–73): follow `relay_from_to` from node to node,
recording `(address, tunnel)` pairs, until a node has no relay entry for the
incoming circuit identifier (the end of the e2e circuit).  The Python
`while True` loop gets explicit fuel; `none` stands for fuel running out or
for `get_node_with_sock_addr` returning `None` (where the test would
crash). -/
def walk_path (nodes : List WalkNode) :
    Nat → RelayRoute → List (Nat × RelayRoute) → Option (List (Nat × RelayRoute))
  | 0, _, _ => none
  | fuel + 1, cur, path =>
      match get_node_with_sock_addr nodes cur.peer with
      | none => none
      | some next_node =>
          match alookup next_node.relay_from_to cur.circuit_id with
          | none => some (path ++ [(next_node.addr, cur)])
          | some t2 => walk_path nodes fuel t2 (path ++ [(next_node.addr, t2)])

/-- From the test (lines 33–74): `get_e2e_circuit_path`, returning `None`
when no RP_DOWNLOADER circuit exists. -/
def get_e2e_circuit_path (nodes : List WalkNode) (fuel : Nat) :
    Option (List (Nat × RelayRoute)) :=
  match find_rp_downloader nodes with
  | none => none
  | some (first_node, c) =>
      walk_path nodes fuel ⟨c.circuit_id, c.peer⟩
        [(first_node.addr, ⟨c.circuit_id, c.peer⟩)]

/-- Modelled from the spec (§4.5): relaying a data cell along the linked
path.  Each relay peels or applies exactly one onion layer, so the payload
delivered at the far end equals the payload sent; the cell is consumed at
the first node whose relay table has no entry for the incoming circuit
identifier, where the registered raw-data callback receives it. -/
def relay_cell (nodes : List WalkNode) :
    Nat → RelayRoute → List Nat → Option (Nat × List Nat)
  | 0, _, _ => none
  | fuel + 1, cur, payload =>
      match get_node_with_sock_addr nodes cur.peer with
      | none => none
      | some nxt =>
          match alookup nxt.relay_from_to cur.circuit_id with
          | none => some (nxt.addr, payload)
          | some t2 => relay_cell nodes fuel t2 payload

/-- The test's `on_raw_data` handler, registered at `dest`: the list of
payloads it receives from one `send_data` call. -/
def received_packets_at (nodes : List WalkNode) (fuel : Nat)
    (start : RelayRoute) (payload : List Nat) (dest : Nat) : List (List Nat) :=
  match relay_cell nodes fuel start payload with
  | some (a, d) => if a = dest then [d] else []
  | none => []

/-- `b'PACKET'`. -/
def PACKET : List Nat := [80, 65, 67, 75, 69, 84]

/-- Modelled from the spec (§4.5 and the reference scenario): the network
state after the three-node rendezvous run completes.  Node 0, the
downloader, owns a ready 1-hop RP_DOWNLOADER circuit (id 100) ending at its
assigned exit node 3, which acts as the rendezvous peer.  The seeder node 2
owns the matching RP_SEEDER circuit (id 302) through its introduction relay
node 1 to the same rendezvous peer.  Linking installed matched bidirectional
relay routes at node 3 (pairing circuit 100 with the seeder-side circuit
201) and at node 1 (pairing 201 with 302). -/
def c1Nodes : List WalkNode :=
  [{ addr := 0
     circuits := [(100, ⟨100, 1, [3], CircuitType.rpDownloader, CircuitState.ready⟩)]
     relay_from_to := [] },
   { addr := 1
     circuits := []
     relay_from_to := [(201, ⟨302, 2⟩), (302, ⟨201, 3⟩)] },
   { addr := 2
     circuits := [(302, ⟨302, 2, [1, 3], CircuitType.rpSeeder, CircuitState.ready⟩)]
     relay_from_to := [] },
   { addr := 3
     circuits := []
     relay_from_to := [(100, ⟨201, 1⟩), (201, ⟨100, 0⟩)] }]

/-- Node 0's downloader swarm after the DHT lookup returned the seeder's
introduction point (seeder key 20, published at relay node 1). -/
def c1SwarmAfterDiscovery : Swarm :=
  (join_swarm serviceS 1 true false 0).process_discovery_response [⟨1, 20⟩]

/-- The path the test walk extracts from `c1Nodes`. -/
def c1Path : List (Nat × RelayRoute) :=
  [(0, ⟨100, 3⟩), (3, ⟨201, 1⟩), (1, ⟨302, 2⟩), (2, ⟨302, 2⟩)]

/-- C1: in the completed three-node rendezvous scenario, node 0's join-swarm
callback has fired; the path walked from the RP_DOWNLOADER circuit through
the relay tables visits exactly 4 entries whose peers (downloader 0,
rendezvous 3, introduction relay 1, seeder 2) are pairwise distinct; and
sending `b'PACKET'` from node 0 over the linked circuit delivers exactly one
packet, equal to `b'PACKET'`, to node 2's raw-data handler. -/
theorem claim_C1_e2e_scenario :
    c1SwarmAfterDiscovery.callback_fired = true ∧
    get_e2e_circuit_path c1Nodes 10 = some c1Path ∧
    c1Path.length = 4 ∧
    (c1Path.map Prod.fst).Nodup ∧
    received_packets_at c1Nodes 10 ⟨100, 3⟩ PACKET 2 = [PACKET] := by
  refine ⟨by decide, by decide, by decide, by decide, by decide⟩

end IPv8
